import Mathlib

/-!
Verification of the kube-ingress-aws-controller sources against their
specification.  The Go code is shallowly embedded: Go structs become Lean
structures, Go maps become association lists read through a fold (later
entries overwrite earlier ones, a missing key reads as the zero value),
`time.Time` instants become natural numbers (0 is the zero instant,
`t.After(now)` is `now < t`), and fallible functions return `Except`/`Option`.
-/

namespace Aws

/-! Tag keys from the cloudformation source file. -/

def certificateARNTagLegacy : String := "ingress:certificate-arn"

def certificateARNTagPfx : String := "ingress:certificate-arn/"

def ingressOwnerTag : String := "ingress:owner"

def cwAlarmConfigHashTag : String := "cloudwatch:alarm-config-hash"

def extraListenersTag : String := "ingress:extra-listeners"

/-- Modelled from the spec: the tag key `kubernetes:application` (the constant
`kubernetesCreatorTag` is declared outside the given source files; the spec
names its value in the Stack Inventory section). -/
def kubernetesCreatorTag : String := "kubernetes:application"

/-- Modelled from the spec: the tag-key stem `kubernetes.io/cluster/` (the
constant `clusterIDTagPrefix` is declared outside the given source files). -/
def clusterIDTagPfx : String := "kubernetes.io/cluster/"

/-- Modelled from the spec: the legacy tag key `KubernetesCluster` (the
constant `clusterIDTag` is declared outside the given source files). -/
def clusterIDTag : String := "KubernetesCluster"

/-- Modelled from the spec: the tag value `owned` (the constant
`resourceLifecycleOwned` is declared outside the given source files). -/
def resourceLifecycleOwned : String := "owned"

/-! CloudFormation stack-status constants of the AWS SDK. -/

def StackStatusCreateInProgress : String := "CREATE_IN_PROGRESS"

def StackStatusCreateFailed : String := "CREATE_FAILED"

def StackStatusCreateComplete : String := "CREATE_COMPLETE"

def StackStatusRollbackInProgress : String := "ROLLBACK_IN_PROGRESS"

def StackStatusRollbackFailed : String := "ROLLBACK_FAILED"

def StackStatusRollbackComplete : String := "ROLLBACK_COMPLETE"

def StackStatusDeleteInProgress : String := "DELETE_IN_PROGRESS"

def StackStatusDeleteFailed : String := "DELETE_FAILED"

def StackStatusDeleteComplete : String := "DELETE_COMPLETE"

def StackStatusUpdateInProgress : String := "UPDATE_IN_PROGRESS"

def StackStatusUpdateCompleteCleanupInProgress : String := "UPDATE_COMPLETE_CLEANUP_IN_PROGRESS"

def StackStatusUpdateComplete : String := "UPDATE_COMPLETE"

def StackStatusUpdateRollbackInProgress : String := "UPDATE_ROLLBACK_IN_PROGRESS"

def StackStatusUpdateRollbackFailed : String := "UPDATE_ROLLBACK_FAILED"

def StackStatusUpdateRollbackCompleteCleanupInProgress : String := "UPDATE_ROLLBACK_COMPLETE_CLEANUP_IN_PROGRESS"

def StackStatusUpdateRollbackComplete : String := "UPDATE_ROLLBACK_COMPLETE"

def StackStatusReviewInProgress : String := "REVIEW_IN_PROGRESS"

/-- Modelled from the spec: the in-progress CloudFormation stack states (the
spec's Reconciler section distinguishes complete, in-progress and errored
states; the SDK states whose names carry IN_PROGRESS). -/
def inProgressStatuses : List String :=
  [StackStatusCreateInProgress, StackStatusRollbackInProgress,
   StackStatusDeleteInProgress, StackStatusUpdateInProgress,
   StackStatusUpdateCompleteCleanupInProgress, StackStatusUpdateRollbackInProgress,
   StackStatusUpdateRollbackCompleteCleanupInProgress, StackStatusReviewInProgress]

/-- ExtraListener mirrors the Go struct of the same name; ports are kept as
integers. -/
structure ExtraListener where
  ListenProtocol : String := ""
  ListenPort : Int := 0
  TargetPort : Int := 0
  PodLabel : String := ""
  Namespace : String := ""
deriving DecidableEq, Repr

/-- Stack mirrors the Go struct `Stack` (a wrapper around a CloudFormation
stack).  `CertificateARNs` is the Go map ARN to TTL, kept as an association
list; TTL instants are naturals, 0 being Go's zero `time.Time`. -/
structure Stack where
  Name : String := ""
  status : String := ""
  statusReason : String := ""
  DNSName : String := ""
  Scheme : String := ""
  SecurityGroup : String := ""
  SSLPolicy : String := ""
  IpAddressType : String := ""
  LoadBalancerType : String := ""
  HTTP2 : Bool := true
  ExtraListeners : List ExtraListener := []
  OwnerIngress : String := ""
  CWAlarmConfigHash : String := ""
  TargetGroupARNs : List String := []
  WAFWebACLID : String := ""
  CertificateARNs : List (String × Nat) := []
  tags : List (String × String) := []
  loadbalancerARN : String := ""
deriving DecidableEq, Repr

/-- The loop body of `Stack.ShouldDelete`: return false as soon as one TTL is
the zero instant or lies strictly after `now`, true when the list is
exhausted. -/
def ShouldDeleteLoop : List (String × Nat) → Nat → Bool
  | [], _ => true
  | (_, t) :: rest, now => if t = 0 ∨ now < t then false else ShouldDeleteLoop rest now

/-- Stack.ShouldDelete from the source: a nil stack is never deleted; else the
stack is deletable when no certificate TTL is zero or in the future.  The
receiver may be nil, hence `Option Stack`; `now` stands for
`time.Now().UTC()`. -/
def Stack.ShouldDelete (s : Option Stack) (now : Nat) : Bool :=
  match s with
  | none => false
  | some st => ShouldDeleteLoop st.CertificateARNs now

/-- Stack.IsComplete from the source: true exactly on the four COMPLETE
switch cases. -/
def Stack.IsComplete (s : Option Stack) : Bool :=
  match s with
  | none => false
  | some st =>
    if st.status = StackStatusCreateComplete ∨ st.status = StackStatusUpdateComplete ∨
       st.status = StackStatusRollbackComplete ∨ st.status = StackStatusUpdateRollbackComplete
    then true
    else false

/-- The error message built by `Stack.Err` (fmt.Errorf with or without the
status reason). -/
def errMessage (status reason : String) : String :=
  if reason ≠ "" then "unexpected status " ++ status ++ ": " ++ reason
  else "unexpected status " ++ status

/-- Stack.Err from the source: nil for a nil stack and for the seven
switch-listed statuses, otherwise an error carrying the status and, when
non-empty, the reason. -/
def Stack.Err (s : Option Stack) : Option String :=
  match s with
  | none => none
  | some st =>
    if st.status = StackStatusCreateInProgress ∨ st.status = StackStatusCreateComplete ∨
       st.status = StackStatusUpdateInProgress ∨ st.status = StackStatusUpdateComplete ∨
       st.status = StackStatusUpdateCompleteCleanupInProgress ∨
       st.status = StackStatusDeleteInProgress ∨ st.status = StackStatusDeleteComplete
    then none
    else some (errMessage st.status st.statusReason)

/-- The four statuses `Stack.IsComplete` accepts. -/
def completeStatuses : List String :=
  [StackStatusCreateComplete, StackStatusUpdateComplete,
   StackStatusRollbackComplete, StackStatusUpdateRollbackComplete]

/-- The seven statuses on which `Stack.Err` returns nil. -/
def errNilStatuses : List String :=
  [StackStatusCreateInProgress, StackStatusCreateComplete,
   StackStatusUpdateInProgress, StackStatusUpdateComplete,
   StackStatusUpdateCompleteCleanupInProgress,
   StackStatusDeleteInProgress, StackStatusDeleteComplete]

/-- convertCloudFormationTags from the source: a Go map built from the tag
list, read as a total function with `""` for a missing key (Go's zero-value
indexing); a later duplicate key overwrites an earlier one. -/
def convertCloudFormationTags (tags : List (String × String)) : String → String :=
  fun key => tags.foldl (fun acc p => if p.1 = key then p.2 else acc) ""

/-- isManagedStack from the source: reject unless the creator tag equals the
controller id, then accept when the cluster tag is `owned` or the legacy
cluster tag equals the cluster id. -/
def isManagedStack (cfTags : List (String × String)) (clusterID controllerID : String) : Bool :=
  if convertCloudFormationTags cfTags kubernetesCreatorTag ≠ controllerID then false
  else decide (convertCloudFormationTags cfTags (clusterIDTagPfx ++ clusterID) = resourceLifecycleOwned ∨
               convertCloudFormationTags cfTags clusterIDTag = clusterID)

/-- The acceptance rule exactly as the claim words it (spec side of the
refinement): either the creator tag and the owned cluster tag together, or
the legacy cluster tag alone. -/
def isManagedStackSpec (cfTags : List (String × String)) (clusterID controllerID : String) : Bool :=
  decide ((convertCloudFormationTags cfTags kubernetesCreatorTag = controllerID ∧
           convertCloudFormationTags cfTags (clusterIDTagPfx ++ clusterID) = resourceLifecycleOwned) ∨
          convertCloudFormationTags cfTags clusterIDTag = clusterID)

/-! Helper lemmas on the deletion loop. -/

theorem shouldDeleteLoop_eq_true_iff (l : List (String × Nat)) (now : Nat) :
    ShouldDeleteLoop l now = true ↔ ∀ p ∈ l, p.2 ≠ 0 ∧ p.2 ≤ now := by
  induction l with
  | nil => simp [ShouldDeleteLoop]
  | cons hd tl ih =>
    obtain ⟨a, t⟩ := hd
    simp only [ShouldDeleteLoop, List.mem_cons]
    by_cases h : t = 0 ∨ now < t
    · simp only [if_pos h]
      constructor
      · intro hf
        exact absurd hf (by simp)
      · intro hall
        have hat := hall (a, t) (Or.inl rfl)
        simp only [] at hat
        rcases h with h | h <;> omega
    · simp only [if_neg h]
      push_neg at h
      rw [ih]
      constructor
      · intro hall p hp
        rcases hp with hp | hp
        · subst hp
          exact ⟨h.1, by omega⟩
        · exact hall p hp
      · intro hall p hp
        exact hall p (Or.inr hp)

/-! Claim theorems about the stack code. -/

/-- A stack carrying one certificate whose TTL is the zero instant. -/
def zeroTTLStack : Stack := { CertificateARNs := [("arn-a", 0)] }

/-- C1 counterexample: in `zeroTTLStack` every TTL (the zero instant) is ≤ now
(taken as 100), yet `ShouldDelete` returns false, so deletion-eligibility is
not equivalent to every TTL being ≤ now. -/
theorem shouldDelete_zero_ttl_counterexample :
    (∀ p ∈ zeroTTLStack.CertificateARNs, p.2 ≤ 100) ∧
    Stack.ShouldDelete (some zeroTTLStack) 100 = false := by decide

/-- C1 (amended): for every non-nil stack, `ShouldDelete` returns true iff
every certificate TTL is both different from the zero instant and ≤ now. -/
theorem shouldDelete_iff_all_ttl_nonzero_and_past (st : Stack) (now : Nat) :
    Stack.ShouldDelete (some st) now = true ↔
      ∀ p ∈ st.CertificateARNs, p.2 ≠ 0 ∧ p.2 ≤ now := by
  simpa [Stack.ShouldDelete] using shouldDeleteLoop_eq_true_iff st.CertificateARNs now

/-- C2: a stack holding at least one certificate TTL that is the zero instant
or lies strictly in the future is not deletion-eligible: `ShouldDelete`
returns false on it. -/
theorem shouldDelete_false_of_zero_or_future (st : Stack) (now : Nat)
    (h : ∃ p ∈ st.CertificateARNs, p.2 = 0 ∨ now < p.2) :
    Stack.ShouldDelete (some st) now = false := by
  rcases h with ⟨p, hp, hzf⟩
  simp only [Stack.ShouldDelete]
  cases hh : ShouldDeleteLoop st.CertificateARNs now
  · rfl
  · have hall := (shouldDeleteLoop_eq_true_iff st.CertificateARNs now).mp hh p hp
    rcases hzf with hz | hf <;> omega

/-- C2 witness: a stack whose only TTL (9) is in the future of now = 5 is not
deleted. -/
theorem shouldDelete_false_of_zero_or_future_witness :
    Stack.ShouldDelete (some { CertificateARNs := [("arn-b", 9)] }) 5 = false :=
  shouldDelete_false_of_zero_or_future { CertificateARNs := [("arn-b", 9)] } 5 (by decide)

/-- C10: `ShouldDelete` of a nil stack is false at any instant, and a non-nil
stack whose certificate map is empty is immediately deletion-eligible. -/
theorem shouldDelete_nil_false_and_empty_true :
    (∀ now : Nat, Stack.ShouldDelete none now = false) ∧
    (∀ (st : Stack) (now : Nat), st.CertificateARNs = [] →
      Stack.ShouldDelete (some st) now = true) := by
  constructor
  · intro now
    rfl
  · intro st now h
    simp [Stack.ShouldDelete, h, ShouldDeleteLoop]

/-- C10 witness: evaluated at the instant 3 and a stack with no certificate
tags at all. -/
theorem shouldDelete_nil_false_and_empty_true_witness :
    Stack.ShouldDelete none 3 = false ∧ Stack.ShouldDelete (some {}) 3 = true :=
  ⟨shouldDelete_nil_false_and_empty_true.1 3,
   shouldDelete_nil_false_and_empty_true.2 {} 3 rfl⟩

/-- A stack observed in the DELETE_COMPLETE state. -/
def deleteCompleteStack : Stack := { status := StackStatusDeleteComplete }

/-- C4 counterexample: DELETE_COMPLETE is neither one of the four complete
statuses nor an in-progress status, yet `Err` returns nil on it, so the
claimed three-way classification does not match the code. -/
theorem err_delete_complete_counterexample :
    Stack.Err (some deleteCompleteStack) = none ∧
    Stack.IsComplete (some deleteCompleteStack) = false ∧
    deleteCompleteStack.status ∉ inProgressStatuses := by decide

/-- C4 (amended): `IsComplete` is true exactly on the four COMPLETE statuses;
`Err` is nil exactly on the seven statuses CREATE_IN_PROGRESS,
CREATE_COMPLETE, UPDATE_IN_PROGRESS, UPDATE_COMPLETE,
UPDATE_COMPLETE_CLEANUP_IN_PROGRESS, DELETE_IN_PROGRESS, DELETE_COMPLETE; on
every other status `Err` returns the error carrying the status and reason. -/
theorem isComplete_and_err_classification (st : Stack) :
    (Stack.IsComplete (some st) = true ↔ st.status ∈ completeStatuses) ∧
    (Stack.Err (some st) = none ↔ st.status ∈ errNilStatuses) ∧
    (st.status ∉ errNilStatuses →
      Stack.Err (some st) = some (errMessage st.status st.statusReason)) := by
  refine ⟨?_, ?_, ?_⟩
  · simp only [Stack.IsComplete, completeStatuses, List.mem_cons, List.not_mem_nil, or_false]
    split
    · simp_all
    · simp_all
  · simp only [Stack.Err, errNilStatuses, List.mem_cons, List.not_mem_nil, or_false]
    split
    · simp_all
    · simp_all
  · intro h
    simp only [errNilStatuses, List.mem_cons, List.not_mem_nil, or_false, not_or] at h
    obtain ⟨h1, h2, h3, h4, h5, h6, h7⟩ := h
    simp [Stack.Err, h1, h2, h3, h4, h5, h6, h7]

/-- C4 witness: on CREATE_FAILED with reason boom, `Err` carries both the
status and the reason. -/
theorem isComplete_and_err_classification_witness :
    Stack.Err (some { status := StackStatusCreateFailed, statusReason := "boom" }) =
      some (errMessage StackStatusCreateFailed "boom") :=
  (isComplete_and_err_classification
    { status := StackStatusCreateFailed, statusReason := "boom" }).2.2 (by decide)

/-- A tag list carrying only the legacy cluster tag. -/
def legacyOnlyTags : List (String × String) := [(clusterIDTag, "cluster-1")]

/-- C3 counterexample: a stack carrying only the legacy KubernetesCluster tag
satisfies the claimed acceptance rule, but `isManagedStack` rejects it because
the creator-tag check comes first. -/
theorem isManagedStack_legacy_only_counterexample :
    isManagedStackSpec legacyOnlyTags "cluster-1" "my-controller" = true ∧
    isManagedStack legacyOnlyTags "cluster-1" "my-controller" = false := by decide

/-- C3 (amended): a stack is accepted as managed iff its kubernetes:application
tag equals the controller id and, in addition, either the
kubernetes.io/cluster/ tag is owned or the legacy KubernetesCluster tag equals
the cluster id. -/
theorem isManagedStack_iff (cfTags : List (String × String)) (clusterID controllerID : String) :
    isManagedStack cfTags clusterID controllerID = true ↔
      (convertCloudFormationTags cfTags kubernetesCreatorTag = controllerID ∧
       (convertCloudFormationTags cfTags (clusterIDTagPfx ++ clusterID) = resourceLifecycleOwned ∨
        convertCloudFormationTags cfTags clusterIDTag = clusterID)) := by
  by_cases h : convertCloudFormationTags cfTags kubernetesCreatorTag = controllerID
  · simp [isManagedStack, h]
  · simp [isManagedStack, h]

end Aws

namespace Kube

/-! Constants of the kubernetes adapter source file.  The Go type IngressType
is a string type, so it is kept as String here. -/

def TypeIngress : String := "ingress"

def TypeRouteGroup : String := "routegroup"

def DefaultClusterLocalDomain : String := ".cluster.local"

def loadBalancerTypeNLB : String := "nlb"

def loadBalancerTypeALB : String := "alb"

/-! AWS-package constants the adapter references. -/

def LoadBalancerTypeApplication : String := "application"

def LoadBalancerTypeNetwork : String := "network"

def IPAddressTypeIPV4 : String := "ipv4"

def IPAddressTypeDualstack : String := "dualstack"

def SchemeInternal : String := "internal"

def SchemeInternetFacing : String := "internet-facing"

/-- Modelled from the spec: the recognized SSL policy names (the map
`aws.SSLPolicies` is declared outside the given source files; only membership
of a name matters here). -/
def SSLPolicies : List String :=
  ["ELBSecurityPolicy-2016-08", "ELBSecurityPolicy-TLS-1-2-2017-01"]

/-! Annotation keys, from the const block of the bundled ingress-client
source (the Go names end in Annotation; here each carries the suffix Key
instead, with the same string value). -/

/-- The source constant ingressSchemeAnnotation. -/
def ingressSchemeKey : String := "zalando.org/aws-load-balancer-scheme"

/-- The source constant ingressSharedAnnotation. -/
def ingressSharedKey : String := "zalando.org/aws-load-balancer-shared"

/-- The source constant ingressALBIPAddressType. -/
def ingressALBIPAddressTypeKey : String := "alb.ingress.kubernetes.io/ip-address-type"

/-- The source constant ingressSSLPolicyAnnotation. -/
def ingressSSLPolicyKey : String := "zalando.org/aws-load-balancer-ssl-policy"

/-- The source constant ingressLoadBalancerTypeAnnotation. -/
def ingressLoadBalancerTypeKey : String := "zalando.org/aws-load-balancer-type"

/-- The source constant ingressSecurityGroupAnnotation. -/
def ingressSecurityGroupKey : String := "zalando.org/aws-load-balancer-security-group"

/-- The source constant ingressWAFWebACLIDAnnotation. -/
def ingressWAFWebACLIDKey : String := "zalando.org/aws-waf-web-acl-id"

/-- The source constant ingressHTTP2Annotation. -/
def ingressHTTP2Key : String := "zalando.org/aws-load-balancer-http2"

/-- The source constant ingressNLBExtraListenersAnnotation. -/
def ingressNLBExtraListenersKey : String := "zalando.org/aws-nlb-extra-listeners"

/-- The source constant ingressCertificateARNAnnotation. -/
def ingressCertificateARNKey : String := "zalando.org/aws-load-balancer-ssl-cert"

/-- The source constant ingressClassAnnotation. -/
def ingressClassKey : String := "kubernetes.io/ingress.class"

/-- The two load-balancer-type translation maps of the adapter, as lookups. -/
def loadBalancerTypesIngressToAWS (t : String) : Option String :=
  if t = loadBalancerTypeALB then some LoadBalancerTypeApplication
  else if t = loadBalancerTypeNLB then some LoadBalancerTypeNetwork
  else none

def loadBalancerTypesAWSToIngress (t : String) : Option String :=
  if t = LoadBalancerTypeApplication then some loadBalancerTypeALB
  else if t = LoadBalancerTypeNetwork then some loadBalancerTypeNLB
  else none

/-- kubeItemMetadata from the bundled ingress-client source, restricted to
the fields the adapter logic reads; the annotation map is an association
list (later duplicate keys overwrite earlier ones, as in a Go map). -/
structure kubeItemMetadata where
  Namespace : String := ""
  Name : String := ""
  Annotations : List (String × String) := []
deriving DecidableEq, Repr

/-- Go map indexing with presence flag: the value of the last binding of
`key`, or none when `key` is absent. -/
def annLookup (anns : List (String × String)) (key : String) : Option String :=
  anns.foldl (fun acc p => if p.1 = key then some p.2 else acc) none

/-- getAnnotationsString from the bundled ingress-client source: the value
bound to `key` when present, the default otherwise. -/
def getAnnotationsString (anns : List (String × String)) (key deflt : String) : String :=
  (annLookup anns key).getD deflt

/-- Ingress mirrors the Go business-object struct of the same name. -/
structure Ingress where
  ResourceType : String := TypeIngress
  Namespace : String := ""
  Name : String := ""
  Shared : Bool := true
  HTTP2 : Bool := true
  ClusterLocal : Bool := false
  CertificateARN : String := ""
  Hostname : String := ""
  ExtraListeners : List Aws.ExtraListener := []
  Scheme : String := ""
  SecurityGroup : String := ""
  SSLPolicy : String := ""
  IPAddressType : String := ""
  LoadBalancerType : String := ""
  WAFWebACLID : String := ""
  Hostnames : List String := []
deriving DecidableEq, Repr

/-- Adapter state relevant to the pure logic; the HTTP clients are
abstracted away, and the accumulated CNI-endpoint list (an adapter-level side
effect) is not tracked. -/
structure Adapter where
  ingressFilters : List String := []
  ingressDefaultSecurityGroup : String := ""
  ingressDefaultSSLPolicy : String := ""
  ingressDefaultLoadBalancerType : String := ""
  clusterLocalDomain : String := ""
  routeGroupSupport : Bool := true
deriving DecidableEq, Repr

/-- Adapter configuration; only the validated BaseURL field matters here. -/
structure Config where
  BaseURL : String := ""
deriving DecidableEq, Repr

/-- NewAdapter from the source: reject a nil config or an empty BaseURL,
otherwise build the adapter with routeGroupSupport set to true and the default
load-balancer type translated through loadBalancerTypesAWSToIngress (a Go map
read, empty string when absent). -/
def NewAdapter (config : Option Config) (ingressClassFilters : List String)
    (ingressDefaultSecurityGroup ingressDefaultSSLPolicy
     ingressDefaultLoadBalancerType clusterLocalDomain : String) :
    Except String Adapter :=
  match config with
  | none => .error "invalid Kubernetes Adapter configuration"
  | some cfg =>
    if cfg.BaseURL = "" then .error "invalid Kubernetes Adapter configuration"
    else .ok
      { ingressFilters := ingressClassFilters
        ingressDefaultSecurityGroup := ingressDefaultSecurityGroup
        ingressDefaultSSLPolicy := ingressDefaultSSLPolicy
        ingressDefaultLoadBalancerType :=
          (loadBalancerTypesAWSToIngress ingressDefaultLoadBalancerType).getD ""
        clusterLocalDomain := clusterLocalDomain
        routeGroupSupport := true }

/-- The record construction ending `newIngress`, including the
unknown-type fallback to the controller default, the translation to the AWS
naming and the forcing of ipv4 for network load balancers. -/
def Adapter.finishIngress (a : Adapter) (typ : String) (metadata : kubeItemMetadata)
    (host : String) (hostnames : List String) (scheme : String) (shared : Bool)
    (securityGroup sslPolicy ipAddressType0 wafWebAclId : String) (http2 : Bool)
    (extraListeners : List Aws.ExtraListener) (lbt : String) : Ingress :=
  let lbt1 := if (loadBalancerTypesIngressToAWS lbt).isSome then lbt
              else a.ingressDefaultLoadBalancerType
  let lbt2 := (loadBalancerTypesIngressToAWS lbt1).getD ""
  let ipAddressType := if lbt2 = LoadBalancerTypeNetwork then IPAddressTypeIPV4
                       else ipAddressType0
  { ResourceType := typ
    Namespace := metadata.Namespace
    Name := metadata.Name
    Hostname := host
    Hostnames := hostnames
    ClusterLocal := decide (hostnames.length < 1)
    CertificateARN := getAnnotationsString metadata.Annotations ingressCertificateARNKey ""
    Scheme := scheme
    Shared := shared
    SecurityGroup := securityGroup
    SSLPolicy := sslPolicy
    IPAddressType := ipAddressType
    LoadBalancerType := lbt2
    WAFWebACLID := wafWebAclId
    HTTP2 := http2
    ExtraListeners := extraListeners }

/-- newIngress from the source.  `parseEL` stands for the external
json.Unmarshal of the extra-listeners annotation value (any parser may be
plugged in); everything else follows the Go control flow: scheme, shared,
ip-address-type, ssl-policy resolution, load-balancer-type resolution with
its internal-scheme and controller defaults, security-group and WAF lookup,
extra-listener validation, the NLB-with-SG/WAF rejection or silent demotion,
and the final record construction. -/
def Adapter.newIngress (a : Adapter)
    (parseEL : String → Except String (List Aws.ExtraListener))
    (typ : String) (metadata : kubeItemMetadata) (host : String)
    (hostnames : List String) : Except String Ingress :=
  let anns := metadata.Annotations
  let scheme := if getAnnotationsString anns ingressSchemeKey "" = SchemeInternal
                then SchemeInternal else SchemeInternetFacing
  let shared := if getAnnotationsString anns ingressSharedKey "" = "false"
                then false else true
  let ipAddressType := if getAnnotationsString anns ingressALBIPAddressTypeKey "" = IPAddressTypeDualstack
                       then IPAddressTypeDualstack else IPAddressTypeIPV4
  let sslPolicy0 := getAnnotationsString anns ingressSSLPolicyKey a.ingressDefaultSSLPolicy
  let sslPolicy := if sslPolicy0 ∈ SSLPolicies then sslPolicy0 else a.ingressDefaultSSLPolicy
  let lbAnn := annLookup anns ingressLoadBalancerTypeKey
  let loadBalancerType0 :=
    match lbAnn with
    | some v => v
    | none => if scheme = SchemeInternal then loadBalancerTypeALB
              else a.ingressDefaultLoadBalancerType
  let sgAnn := annLookup anns ingressSecurityGroupKey
  let securityGroup := sgAnn.getD a.ingressDefaultSecurityGroup
  let wafAnn := annLookup anns ingressWAFWebACLIDKey
  let wafWebAclId := wafAnn.getD ""
  let http2 := if getAnnotationsString anns ingressHTTP2Key "" = "false" then false else true
  let extraListenersE : Except String (List Aws.ExtraListener) :=
    match annLookup anns ingressNLBExtraListenersKey with
    | none => .ok []
    | some raw =>
      if loadBalancerType0 ≠ loadBalancerTypeNLB then
        .error "extra listeners are only supported on NLBs"
      else
        match parseEL raw with
        | .error e => .error ("unable to parse aws-nlb-extra-listeners annotation: " ++ e)
        | .ok ls =>
          if ls.all (fun l => l.ListenProtocol = "TCP" ∨ l.ListenProtocol = "UDP" ∨
                              l.ListenProtocol = "TCP_UDP") then
            .ok (ls.map (fun l => { l with Namespace := metadata.Namespace }))
          else
            .error "only TCP, UDP, or TCP_UDP are allowed as protocols for extra listeners"
  match extraListenersE with
  | .error e => .error e
  | .ok extraListeners =>
    if loadBalancerType0 = loadBalancerTypeNLB ∧ (sgAnn.isSome ∨ wafAnn.isSome) then
      if lbAnn.isSome then
        .error "security group or WAF are not supported by NLB (configured by annotation)"
      else
        .ok (a.finishIngress typ metadata host hostnames scheme shared securityGroup
              sslPolicy ipAddressType wafWebAclId http2 extraListeners loadBalancerTypeALB)
    else
      .ok (a.finishIngress typ metadata host hostnames scheme shared securityGroup
            sslPolicy ipAddressType wafWebAclId http2 extraListeners loadBalancerType0)

/-- The ingress struct of the bundled ingress-client source as the adapter
reads it: metadata, the hosts of the spec rules, the typed ingressClassName
field (empty when unset, as getIngressClassName treats it) and the hostnames
of the status load balancer. -/
structure ingressItem where
  Metadata : kubeItemMetadata := {}
  SpecRuleHosts : List String := []
  SpecIngressClassName : String := ""
  StatusHostnames : List String := []
deriving DecidableEq, Repr

/-- A RouteGroup item as the adapter reads it. -/
structure routegroupItem where
  Metadata : kubeItemMetadata := {}
  SpecHosts : List String := []
  StatusHostnames : List String := []
deriving DecidableEq, Repr

/-- The status-hostname scan shared by newIngressFromKube and
newIngressFromRouteGroup: the first non-empty hostname, or the empty
string. -/
def firstNonemptyHostname : List String → String
  | [] => ""
  | h :: rest => if h ≠ "" then h else firstNonemptyHostname rest

/-- The rule-host filter of newIngressFromKube and newIngressFromRouteGroup: a
host is kept when non-empty and, if a cluster-local domain is configured, not
carrying it as a suffix. -/
def keepHost (clusterLocalDomain host : String) : Bool :=
  (!(host == "")) && (clusterLocalDomain == "" || !(host.endsWith clusterLocalDomain))

/-- newIngressFromKube from the source. -/
def Adapter.newIngressFromKube (a : Adapter)
    (parseEL : String → Except String (List Aws.ExtraListener))
    (ki : ingressItem) : Except String Ingress :=
  let host := firstNonemptyHostname ki.StatusHostnames
  let hostnames := ki.SpecRuleHosts.filter (keepHost a.clusterLocalDomain)
  a.newIngress parseEL TypeIngress ki.Metadata host hostnames

/-- newIngressFromRouteGroup from the source. -/
def Adapter.newIngressFromRouteGroup (a : Adapter)
    (parseEL : String → Except String (List Aws.ExtraListener))
    (rg : routegroupItem) : Except String Ingress :=
  let host := firstNonemptyHostname rg.StatusHostnames
  let hostnames := rg.SpecHosts.filter (keepHost a.clusterLocalDomain)
  a.newIngress parseEL TypeRouteGroup rg.Metadata host hostnames

/-- supportedIngressClass from the source: membership in the filter list. -/
def Adapter.supportedIngressClass (a : Adapter) (ingressClass : String) : Bool :=
  a.ingressFilters.contains ingressClass

/-- supportedIngress from the source: everything is supported when no filter
is configured; else the typed class field, falling back to the deprecated
class annotation, must be in the filter list. -/
def Adapter.supportedIngress (a : Adapter) (ki : ingressItem) : Bool :=
  if a.ingressFilters.length = 0 then true
  else
    let c0 := ki.SpecIngressClassName
    let c := if c0 = "" then getAnnotationsString ki.Metadata.Annotations ingressClassKey ""
             else c0
    a.supportedIngressClass c

/-- supportedCRD from the source. -/
def Adapter.supportedCRD (a : Adapter) (metadata : kubeItemMetadata) : Bool :=
  if a.ingressFilters.length = 0 then true
  else a.supportedIngressClass (getAnnotationsString metadata.Annotations ingressClassKey "")

/-- The item loop of ListIngress: unsupported items are skipped, items whose
normalization errors are logged and dropped, the rest are collected. -/
def Adapter.processIngressItems (a : Adapter)
    (parseEL : String → Except String (List Aws.ExtraListener)) :
    List ingressItem → List Ingress
  | [] => []
  | ki :: rest =>
    let tl := a.processIngressItems parseEL rest
    if a.supportedIngress ki then
      match a.newIngressFromKube parseEL ki with
      | .ok ing => ing :: tl
      | .error _ => tl
    else tl

/-- The error kinds the adapter distinguishes when listing resources.
`resourceNotFound` and `noPermission` model the sentinel errors
ErrResourceNotFound and ErrNoPermissionToAccessResource matched through
errors.Is (the sentinels are declared outside the given source files). -/
inductive KubeErr where
  | resourceNotFound
  | noPermission
  | other (msg : String)
deriving DecidableEq, Repr

/-- ListIngress from the source, over the outcome of the ingress listing
call. -/
def Adapter.ListIngress (a : Adapter)
    (parseEL : String → Except String (List Aws.ExtraListener))
    (listOutcome : Except KubeErr (List ingressItem)) :
    Except KubeErr (List Ingress) :=
  match listOutcome with
  | .error e => .error e
  | .ok il => .ok (a.processIngressItems parseEL il)

/-- The item loop of ListRoutegroups. -/
def Adapter.processRouteGroupItems (a : Adapter)
    (parseEL : String → Except String (List Aws.ExtraListener)) :
    List routegroupItem → List Ingress
  | [] => []
  | rg :: rest =>
    let tl := a.processRouteGroupItems parseEL rest
    if a.supportedCRD rg.Metadata then
      match a.newIngressFromRouteGroup parseEL rg with
      | .ok ing => ing :: tl
      | .error _ => tl
    else tl

/-- ListRoutegroups from the source, over the outcome of the routegroup
listing call. -/
def Adapter.ListRoutegroups (a : Adapter)
    (parseEL : String → Except String (List Aws.ExtraListener))
    (listOutcome : Except KubeErr (List routegroupItem)) :
    Except KubeErr (List Ingress) :=
  match listOutcome with
  | .error e => .error e
  | .ok rgs => .ok (a.processRouteGroupItems parseEL rgs)

/-- ListResources from the source.  The call consumes the outcomes of the two
listing requests of this tick and returns the adapter state after the call,
the returned value, and whether the routegroup listing was attempted at all
(false exactly when the Go code skips the a.ListRoutegroups call). -/
def Adapter.ListResources (a : Adapter)
    (parseEL : String → Except String (List Aws.ExtraListener))
    (ingOutcome : Except KubeErr (List ingressItem))
    (rgOutcome : Except KubeErr (List routegroupItem)) :
    Adapter × Except KubeErr (List Ingress) × Bool :=
  match a.ListIngress parseEL ingOutcome with
  | .error e => (a, .error e, false)
  | .ok ings =>
    if a.routeGroupSupport then
      match a.ListRoutegroups parseEL rgOutcome with
      | .ok rgs => (a, .ok (ings ++ rgs), true)
      | .error e =>
        if e = .resourceNotFound ∨ e = .noPermission then
          ({ a with routeGroupSupport := false }, .ok ings, true)
        else (a, .error e, true)
    else (a, .ok ings, false)

/-- A sequence of reconcile ticks, each observing its own listing outcomes;
returns the final adapter state and, per tick, whether the routegroup listing
was attempted. -/
def Adapter.runTicks (a : Adapter)
    (parseEL : String → Except String (List Aws.ExtraListener)) :
    List (Except KubeErr (List ingressItem) × Except KubeErr (List routegroupItem)) →
    Adapter × List Bool
  | [] => (a, [])
  | (ing, rg) :: rest =>
    let r := a.ListResources parseEL ing rg
    let next := r.1.runTicks parseEL rest
    (next.1, r.2.2 :: next.2)

/-- The error values of UpdateIngressLoadBalancer. -/
inductive UpdateErr where
  | invalidParams
  | updateNotNeeded
  | unknownResourceType (t : String)
deriving DecidableEq, Repr

/-- The status PATCH issued on success, recording the target resource and the
hostname written into its status. -/
structure StatusPatch where
  resourceType : String
  Namespace : String
  Name : String
  hostname : String
deriving DecidableEq, Repr

/-- The sentinel-domain mapping at the top of UpdateIngressLoadBalancer. -/
def mapClusterLocal (dns : String) : String :=
  if dns = DefaultClusterLocalDomain then "" else dns

/-- UpdateIngressLoadBalancer from the source: nil ingress or empty DNS name
is invalid; the cluster-local sentinel maps to the empty string; an unchanged
hostname short-circuits with updateNotNeeded; otherwise one status PATCH is
issued for the resource (the client call itself is assumed to succeed). -/
def Adapter.UpdateIngressLoadBalancer (_a : Adapter) (ing : Option Ingress)
    (loadBalancerDNSName : String) : Except UpdateErr StatusPatch :=
  match ing with
  | none => .error .invalidParams
  | some ingress =>
    if loadBalancerDNSName = "" then .error .invalidParams
    else
      let dns := mapClusterLocal loadBalancerDNSName
      if ingress.Hostname = dns then .error .updateNotNeeded
      else if ingress.ResourceType = TypeRouteGroup then
        .ok ⟨TypeRouteGroup, ingress.Namespace, ingress.Name, dns⟩
      else if ingress.ResourceType = TypeIngress then
        .ok ⟨TypeIngress, ingress.Namespace, ingress.Name, dns⟩
      else .error (.unknownResourceType ingress.ResourceType)

/-- The effect of the status PATCH on the resource as observed by the next
tick: the status hostname becomes the patched hostname. -/
def applyStatusPatch (ing : Ingress) (p : StatusPatch) : Ingress :=
  { ing with Hostname := p.hostname }

/-- Number of PATCH requests a call issues: one on success, none on any
error. -/
def patchCount : Except UpdateErr StatusPatch → Nat
  | .ok _ => 1
  | .error _ => 0

/-! Helper lemmas on the adapter. -/

theorem finishIngress_network_ipv4 (a : Adapter) (typ : String)
    (metadata : kubeItemMetadata) (host : String) (hostnames : List String)
    (scheme : String) (shared : Bool)
    (securityGroup sslPolicy ipAddressType0 wafWebAclId : String) (http2 : Bool)
    (extraListeners : List Aws.ExtraListener) (lbt : String)
    (h : (a.finishIngress typ metadata host hostnames scheme shared securityGroup
            sslPolicy ipAddressType0 wafWebAclId http2 extraListeners
            lbt).LoadBalancerType = LoadBalancerTypeNetwork) :
    (a.finishIngress typ metadata host hostnames scheme shared securityGroup
        sslPolicy ipAddressType0 wafWebAclId http2 extraListeners
        lbt).IPAddressType = IPAddressTypeIPV4 := by
  simp only [Adapter.finishIngress] at h ⊢
  rw [if_pos h]

/-- C7: every ingress record a successful normalization returns satisfies the
invariant that a network load-balancer type comes with the ipv4 address type,
whatever the annotations (a dualstack request included) and whatever the
extra-listener parser does. -/
theorem newIngress_network_implies_ipv4 (a : Adapter)
    (parseEL : String → Except String (List Aws.ExtraListener))
    (typ : String) (metadata : kubeItemMetadata) (host : String)
    (hostnames : List String) (ing : Ingress)
    (h : a.newIngress parseEL typ metadata host hostnames = .ok ing)
    (hnet : ing.LoadBalancerType = LoadBalancerTypeNetwork) :
    ing.IPAddressType = IPAddressTypeIPV4 := by
  simp only [Adapter.newIngress] at h
  repeat' split at h
  all_goals
    first
      | exact Except.noConfusion h
      | (simp only [Except.ok.injEq] at h
         subst h
         apply finishIngress_network_ipv4
         exact hnet)

theorem processIngressItems_append (a : Adapter)
    (parseEL : String → Except String (List Aws.ExtraListener))
    (xs ys : List ingressItem) :
    a.processIngressItems parseEL (xs ++ ys) =
      a.processIngressItems parseEL xs ++ a.processIngressItems parseEL ys := by
  induction xs with
  | nil => simp [Adapter.processIngressItems]
  | cons ki rest ih =>
    simp only [List.cons_append, Adapter.processIngressItems]
    split
    · split <;> simp [ih]
    · simp [ih]

set_option maxHeartbeats 2000000 in
theorem newIngress_error_of_nlb_annotation_and_sg_waf (a : Adapter)
    (parseEL : String → Except String (List Aws.ExtraListener))
    (typ : String) (metadata : kubeItemMetadata) (host : String)
    (hostnames : List String)
    (hlb : annLookup metadata.Annotations ingressLoadBalancerTypeKey =
      some loadBalancerTypeNLB)
    (hsw : (annLookup metadata.Annotations ingressSecurityGroupKey).isSome = true ∨
           (annLookup metadata.Annotations ingressWAFWebACLIDKey).isSome = true) :
    ∃ e, a.newIngress parseEL typ metadata host hostnames = .error e := by
  cases hres : a.newIngress parseEL typ metadata host hostnames with
  | error e => exact ⟨e, rfl⟩
  | ok ing =>
    exfalso
    simp only [Adapter.newIngress, hlb] at hres
    repeat' split at hres
    all_goals simp_all

/-- C5: an ingress whose load-balancer-type annotation is nlb and that also
sets the security-group or WAF web-ACL annotation fails normalization with an
error, and ListIngress drops it from the tick: the listing of any item list
around it contains no record for it. -/
theorem nlb_with_sg_waf_annotation_rejected (a : Adapter)
    (parseEL : String → Except String (List Aws.ExtraListener))
    (ki : ingressItem) (pre post : List ingressItem)
    (hlb : annLookup ki.Metadata.Annotations ingressLoadBalancerTypeKey =
      some loadBalancerTypeNLB)
    (hsw : (annLookup ki.Metadata.Annotations ingressSecurityGroupKey).isSome = true ∨
           (annLookup ki.Metadata.Annotations ingressWAFWebACLIDKey).isSome = true) :
    (∃ e, a.newIngressFromKube parseEL ki = .error e) ∧
    a.ListIngress parseEL (.ok (pre ++ ki :: post)) =
      .ok (a.processIngressItems parseEL pre ++ a.processIngressItems parseEL post) := by
  have herr : ∃ e, a.newIngressFromKube parseEL ki = .error e := by
    simp only [Adapter.newIngressFromKube]
    exact newIngress_error_of_nlb_annotation_and_sg_waf a parseEL TypeIngress ki.Metadata
      (firstNonemptyHostname ki.StatusHostnames)
      (ki.SpecRuleHosts.filter (keepHost a.clusterLocalDomain)) hlb hsw
  refine ⟨herr, ?_⟩
  obtain ⟨e, he⟩ := herr
  have hdrop : a.processIngressItems parseEL (ki :: post) =
      a.processIngressItems parseEL post := by
    simp only [Adapter.processIngressItems, he]
    split <;> rfl
  simp only [Adapter.ListIngress, processIngressItems_append, hdrop]

set_option maxHeartbeats 2000000 in
/-- C6: an ingress without the load-balancer-type annotation whose type
resolves to nlb from the controller default (scheme not internal), while the
security-group or WAF web-ACL annotation is set and no extra-listener
annotation is present, is normalized without error and its resolved
load-balancer type is silently demoted to the application (ALB) type. -/
theorem nlb_default_with_sg_waf_demoted_to_alb (a : Adapter)
    (parseEL : String → Except String (List Aws.ExtraListener))
    (typ : String) (metadata : kubeItemMetadata) (host : String)
    (hostnames : List String)
    (hlb : annLookup metadata.Annotations ingressLoadBalancerTypeKey = none)
    (hscheme : getAnnotationsString metadata.Annotations ingressSchemeKey "" ≠ SchemeInternal)
    (hdef : a.ingressDefaultLoadBalancerType = loadBalancerTypeNLB)
    (hsw : (annLookup metadata.Annotations ingressSecurityGroupKey).isSome = true ∨
           (annLookup metadata.Annotations ingressWAFWebACLIDKey).isSome = true)
    (hel : annLookup metadata.Annotations ingressNLBExtraListenersKey = none) :
    ∃ ing, a.newIngress parseEL typ metadata host hostnames = .ok ing ∧
      ing.LoadBalancerType = LoadBalancerTypeApplication := by
  have hni : SchemeInternetFacing ≠ SchemeInternal := by decide
  have halb : loadBalancerTypesIngressToAWS loadBalancerTypeALB =
      some LoadBalancerTypeApplication := by decide
  rcases hsw with hsw | hsw <;>
    simp [Adapter.newIngress, hlb, hel, hdef, if_neg hscheme, if_neg hni, hsw,
          Adapter.finishIngress, halb]

/-- C8: with a non-empty DNS name, a call whose ingress status hostname
already equals the DNS name after the cluster-local mapping short-circuits
with updateNotNeeded and issues no PATCH; when the hostname differs, the call
issues exactly one PATCH, and repeating the call on the patched resource
short-circuits, so two calls with the same hostname perform exactly one
PATCH. -/
theorem update_ingress_idempotent (a : Adapter) (ing : Ingress) (dns : String)
    (hdns : dns ≠ "") :
    (ing.Hostname = mapClusterLocal dns →
      a.UpdateIngressLoadBalancer (some ing) dns = .error .updateNotNeeded ∧
      patchCount (a.UpdateIngressLoadBalancer (some ing) dns) = 0) ∧
    (ing.Hostname ≠ mapClusterLocal dns →
      (ing.ResourceType = TypeIngress ∨ ing.ResourceType = TypeRouteGroup) →
      patchCount (a.UpdateIngressLoadBalancer (some ing) dns) = 1 ∧
      ∀ p, a.UpdateIngressLoadBalancer (some ing) dns = .ok p →
        a.UpdateIngressLoadBalancer (some (applyStatusPatch ing p)) dns =
          .error .updateNotNeeded ∧
        patchCount (a.UpdateIngressLoadBalancer (some (applyStatusPatch ing p)) dns) = 0) := by
  have hir : TypeIngress ≠ TypeRouteGroup := by decide
  constructor
  · intro h
    constructor <;> simp [Adapter.UpdateIngressLoadBalancer, hdns, h, patchCount]
  · intro hne hty
    rcases hty with hty | hty
    · constructor
      · simp [Adapter.UpdateIngressLoadBalancer, hdns, hne, hty, hir, patchCount]
      · intro p hp
        simp [Adapter.UpdateIngressLoadBalancer, hdns, hne, hty, hir] at hp
        subst hp
        constructor <;>
          simp [Adapter.UpdateIngressLoadBalancer, applyStatusPatch, hdns, patchCount]
    · constructor
      · simp [Adapter.UpdateIngressLoadBalancer, hdns, hne, hty, patchCount]
      · intro p hp
        simp [Adapter.UpdateIngressLoadBalancer, hdns, hne, hty, hir] at hp
        subst hp
        constructor <;>
          simp [Adapter.UpdateIngressLoadBalancer, applyStatusPatch, hdns, patchCount]

theorem listResources_when_unsupported (a : Adapter)
    (parseEL : String → Except String (List Aws.ExtraListener))
    (ingOutcome : Except KubeErr (List ingressItem))
    (rgOutcome : Except KubeErr (List routegroupItem))
    (h : a.routeGroupSupport = false) :
    (a.ListResources parseEL ingOutcome rgOutcome).1 = a ∧
    (a.ListResources parseEL ingOutcome rgOutcome).2.2 = false := by
  cases ingOutcome with
  | error e => simp [Adapter.ListResources, Adapter.ListIngress]
  | ok l => simp [Adapter.ListResources, Adapter.ListIngress, h]

theorem runTicks_latched (a : Adapter)
    (parseEL : String → Except String (List Aws.ExtraListener))
    (envs : List (Except KubeErr (List ingressItem) × Except KubeErr (List routegroupItem)))
    (h : a.routeGroupSupport = false) :
    (a.runTicks parseEL envs).1.routeGroupSupport = false ∧
    ∀ b ∈ (a.runTicks parseEL envs).2, b = false := by
  induction envs generalizing a with
  | nil => simpa [Adapter.runTicks] using h
  | cons env rest ih =>
    obtain ⟨e1, e2⟩ := env
    have hlr := listResources_when_unsupported a parseEL e1 e2 h
    have hsub : (a.ListResources parseEL e1 e2).1.routeGroupSupport = false := by
      rw [hlr.1]
      exact h
    have hih := ih (a.ListResources parseEL e1 e2).1 hsub
    constructor
    · simpa [Adapter.runTicks] using hih.1
    · intro b hb
      simp only [Adapter.runTicks, List.mem_cons] at hb
      rcases hb with hb | hb
      · subst hb
        exact hlr.2
      · exact hih.2 b hb

/-- C9: the routegroup-support flag starts true on a freshly built adapter,
flips to false the one time a routegroup listing fails with resource-not-found
or permission-denied while ListResources still returns the ingress list
without error, and once false it stays false across any sequence of ticks and
the routegroup listing is never attempted again. -/
theorem routeGroupSupport_latches :
    (∀ (cfg : Config) (fs : List String) (sg ssl lbt cld : String) (ad : Adapter),
        NewAdapter (some cfg) fs sg ssl lbt cld = .ok ad →
        ad.routeGroupSupport = true) ∧
    (∀ (a : Adapter) (parseEL : String → Except String (List Aws.ExtraListener))
        (ingItems : List ingressItem) (e : KubeErr),
        a.routeGroupSupport = true →
        (e = .resourceNotFound ∨ e = .noPermission) →
        a.ListResources parseEL (.ok ingItems) (.error e) =
          ({ a with routeGroupSupport := false },
           .ok (a.processIngressItems parseEL ingItems), true)) ∧
    (∀ (a : Adapter) (parseEL : String → Except String (List Aws.ExtraListener))
        (ingOutcome : Except KubeErr (List ingressItem))
        (rgOutcome : Except KubeErr (List routegroupItem)),
        a.routeGroupSupport = false →
        (a.ListResources parseEL ingOutcome rgOutcome).1 = a ∧
        (a.ListResources parseEL ingOutcome rgOutcome).2.2 = false) ∧
    (∀ (a : Adapter) (parseEL : String → Except String (List Aws.ExtraListener))
        (envs : List (Except KubeErr (List ingressItem) ×
                      Except KubeErr (List routegroupItem))),
        a.routeGroupSupport = false →
        (a.runTicks parseEL envs).1.routeGroupSupport = false ∧
        ∀ b ∈ (a.runTicks parseEL envs).2, b = false) := by
  refine ⟨?_, ?_, ?_, ?_⟩
  · intro cfg fs sg ssl lbt cld ad h
    simp only [NewAdapter] at h
    split at h
    · exact Except.noConfusion h
    · simp only [Except.ok.injEq] at h
      subst h
      rfl
  · intro a parseEL ingItems e hsupp he
    rcases he with he | he <;>
      subst he <;>
      simp [Adapter.ListResources, Adapter.ListIngress, Adapter.ListRoutegroups, hsupp]
  · intro a parseEL ingOutcome rgOutcome h
    exact listResources_when_unsupported a parseEL ingOutcome rgOutcome h
  · intro a parseEL envs h
    exact runTicks_latched a parseEL envs h

/-! Concrete inputs for the witnesses. -/

/-- A trivial extra-listener parser standing in for json.Unmarshal when the
annotation is absent. -/
def parseNone : String → Except String (List Aws.ExtraListener) := fun _ => .ok []

/-- An ingress item with the nlb type annotation and a security-group
annotation. -/
def nlbSgItem : ingressItem :=
  { Metadata := { Annotations := [(ingressLoadBalancerTypeKey, loadBalancerTypeNLB),
                                  (ingressSecurityGroupKey, "sg-123")] } }

/-- Metadata with only a WAF web-ACL annotation. -/
def wafMeta : kubeItemMetadata :=
  { Annotations := [(ingressWAFWebACLIDKey, "abc")] }

/-- Metadata requesting an nlb load balancer and a dualstack address type. -/
def nlbMeta : kubeItemMetadata :=
  { Annotations := [(ingressLoadBalancerTypeKey, loadBalancerTypeNLB),
                    (ingressALBIPAddressTypeKey, IPAddressTypeDualstack)] }

/-- The record newIngress produces for `nlbMeta` on a default adapter. -/
def nlbRecord : Ingress :=
  { ResourceType := TypeIngress
    Scheme := SchemeInternetFacing
    ClusterLocal := true
    IPAddressType := IPAddressTypeIPV4
    LoadBalancerType := LoadBalancerTypeNetwork }

/-- C5 witness: the rejection and the drop evaluated on `nlbSgItem` alone in
the listing. -/
theorem nlb_with_sg_waf_annotation_rejected_witness :
    (∃ e, ({ } : Adapter).newIngressFromKube parseNone nlbSgItem = .error e) ∧
    ({ } : Adapter).ListIngress parseNone (.ok ([] ++ nlbSgItem :: [])) =
      .ok (({ } : Adapter).processIngressItems parseNone [] ++
           ({ } : Adapter).processIngressItems parseNone []) :=
  nlb_with_sg_waf_annotation_rejected { } parseNone nlbSgItem [] []
    (by decide) (Or.inl (by decide))

/-- C6 witness: a controller defaulting to nlb with a WAF annotation and no
type annotation yields an application-type record without error. -/
theorem nlb_default_with_sg_waf_demoted_to_alb_witness :
    ∃ ing, ({ ingressDefaultLoadBalancerType := loadBalancerTypeNLB } : Adapter).newIngress
        parseNone TypeIngress wafMeta "" [] = .ok ing ∧
      ing.LoadBalancerType = LoadBalancerTypeApplication :=
  nlb_default_with_sg_waf_demoted_to_alb
    { ingressDefaultLoadBalancerType := loadBalancerTypeNLB } parseNone TypeIngress
    wafMeta "" [] (by decide) (by decide) rfl (Or.inr (by decide)) (by decide)

/-- C7 witness: the record normalized from `nlbMeta` (network type requested
together with dualstack) carries the ipv4 address type. -/
theorem newIngress_network_implies_ipv4_witness :
    nlbRecord.IPAddressType = IPAddressTypeIPV4 :=
  newIngress_network_implies_ipv4 { } parseNone TypeIngress nlbMeta "" [] nlbRecord
    (by rfl) rfl

/-- C8 witness: a first patch to y.elb issues one PATCH, and a second call on
an ingress already carrying y.elb short-circuits with updateNotNeeded. -/
theorem update_ingress_idempotent_witness :
    patchCount (({ } : Adapter).UpdateIngressLoadBalancer
      (some { Hostname := "" }) "y.elb") = 1 ∧
    ({ } : Adapter).UpdateIngressLoadBalancer
      (some { Hostname := "y.elb" }) "y.elb" = .error .updateNotNeeded := by
  have h1 := update_ingress_idempotent { } { Hostname := "" } "y.elb" (by decide)
  have h2 := update_ingress_idempotent { } { Hostname := "y.elb" } "y.elb" (by decide)
  exact ⟨(h1.2 (by decide) (Or.inl rfl)).1, (h2.1 (by decide)).1⟩

/-- C9 witness: the latch evaluated on a fresh adapter, a permission-denied
routegroup listing, and a later tick of a latched adapter. -/
theorem routeGroupSupport_latches_witness :
    (({ } : Adapter).routeGroupSupport = true) ∧
    (({ } : Adapter).ListResources parseNone (.ok []) (.error .noPermission) =
      ({ routeGroupSupport := false }, .ok [], true)) ∧
    ((({ routeGroupSupport := false } : Adapter).ListResources parseNone
        (.ok []) (.ok [])).2.2 = false) := by
  refine ⟨?_, ?_, ?_⟩
  · exact routeGroupSupport_latches.1 { BaseURL := "https://api" } [] "" "" "" "" { } rfl
  · have h := routeGroupSupport_latches.2.1 { } parseNone [] .noPermission rfl (Or.inr rfl)
    simpa [Adapter.processIngressItems] using h
  · exact (routeGroupSupport_latches.2.2.1 { routeGroupSupport := false } parseNone
      (.ok []) (.ok []) rfl).2

end Kube
